import Mathlib

/-!
Verification development for a MySQL MCP server (`server.py`).

The server exposes three operations: `list_resources` (list tables),
`read_table_resource` (read one table), and `execute_sql` (run an arbitrary
statement), plus a configuration resolver `get_db_config`.  We embed the
handlers shallowly: the database connector is an oracle (`Engine`), each
handler returns its result together with a trace of resource events
(connection/cursor open and close, statement execution, commit) that mirrors
the `with`-blocks and explicit close/commit calls of the Python source.
-/

namespace MySQLMCP

/-- Dynamic values appearing in result rows (Python objects). -/
inductive Value where
  | vNull
  | vStr (s : String)
  | vInt (n : Int)
  deriving DecidableEq, Repr

/-- Python `str()` of a row value: `None` stringifies to `"None"`. -/
def pyStr : Value → String
  | Value.vNull => "None"
  | Value.vStr s => s
  | Value.vInt n => toString n

/-- Rendering used by the tool path (line 135 of server.py):
`str(val) if val is not None else "NULL"`. -/
def renderTool : Value → String
  | Value.vNull => "NULL"
  | v => pyStr v

/-- ASCII whitespace characters recognised by Python `str.strip()`. -/
def pyIsSpace (c : Char) : Bool :=
  c = ' ' || c = '\t' || c = '\n' || c = '\r' || c = Char.ofNat 11 || c = Char.ofNat 12

/-- Python `str.lstrip()` (leading-whitespace trim). -/
def pyLStrip (s : String) : String :=
  ⟨s.data.dropWhile pyIsSpace⟩

/-- Python `str.strip()` (both-ends whitespace trim). -/
def pyStrip (s : String) : String :=
  ⟨((s.data.dropWhile pyIsSpace).reverse.dropWhile pyIsSpace).reverse⟩

/-- Python `str.upper()` (ASCII case mapping suffices for this code base). -/
def pyUpper (s : String) : String :=
  ⟨s.data.map Char.toUpper⟩

/-- Python `s.startswith(p)`. -/
def pyStartsWith (s p : String) : Bool :=
  s.data.take p.data.length == p.data

/-- Python `sep.join(parts)` with a character-list separator. -/
def pyJoin (sep : List Char) (parts : List String) : String :=
  ⟨List.intercalate sep (parts.map String.data)⟩

/-- Lines of a string, splitting on the newline character. -/
def lineList (s : String) : List String :=
  (s.data.splitOn '\n').map (fun cs => String.mk cs)

/-- Statement classification of server.py line 123:
`query.strip().upper().startswith("SELECT")`. -/
def isReadQuery (q : String) : Bool :=
  pyStartsWith (pyUpper (pyStrip q)) "SELECT"

/-- Modelled from the spec (§4.2): a statement is read when, after trimming
LEADING whitespace only, its case-insensitive prefix is `SELECT`. -/
def specIsRead (q : String) : Bool :=
  pyStartsWith (pyUpper (pyLStrip q)) "SELECT"

/-- Process environment: a partial map from variable names to strings. -/
abbrev Env := String → Option String

/-- Python `os.getenv(key, default)`. -/
def getenv (env : Env) (k d : String) : String :=
  (env k).getD d

/-- Digit run (with optional single underscores between digits) accepted by
Python `int()` after the first digit. -/
def digitsTail : List Char → Bool
  | [] => true
  | '_' :: c :: rest => c.isDigit && digitsTail rest
  | c :: rest => c.isDigit && digitsTail rest

/-- Nonempty digit run accepted by Python `int()` (underscores allowed
between digits). -/
def digitsOk : List Char → Bool
  | [] => false
  | c :: rest => c.isDigit && digitsTail rest

/-- Numeric value of a digit run, skipping underscores. -/
def parseDigits (cs : List Char) : Nat :=
  cs.foldl (fun acc c => if c = '_' then acc else acc * 10 + (c.toNat - '0'.toNat)) 0

/-- Python `int(s)` on a string: whitespace-trimmed, optional sign, digits. -/
def pyInt? (s : String) : Option Int :=
  let t := ((s.data.dropWhile pyIsSpace).reverse.dropWhile pyIsSpace).reverse
  match t with
  | '+' :: rest => if digitsOk rest then some (parseDigits rest) else none
  | '-' :: rest => if digitsOk rest then some (-(parseDigits rest : Int)) else none
  | rest => if digitsOk rest then some (parseDigits rest) else none

/-- Python truthiness of an optional string: `None` and `""` are falsy. -/
def truthy : Option String → Bool
  | none => false
  | some s => s != ""

/-- Errors a handler can surface: `valueErr` models Python `ValueError`
(raised by `get_db_config` and by `int()`), `runtimeErr` models the
`RuntimeError` the handlers raise from their `except` blocks. -/
inductive PyErr where
  | valueErr (msg : String)
  | runtimeErr (msg : String)
  deriving DecidableEq, Repr

/-- Message carried by an error. -/
def PyErr.msg : PyErr → String
  | PyErr.valueErr m => m
  | PyErr.runtimeErr m => m

/-- Connection descriptor built by `get_db_config` (fields whose environment
entry is unset and has no default are `none`, mirroring the dict after
`None`-removal). -/
structure DBConfig where
  host : String
  port : Int
  user : Option String
  password : Option String
  database : Option String
  charset : String
  collation : String
  autocommit : Bool
  sql_mode : String
  deriving DecidableEq, Repr

/-- Embedding of `get_db_config` (server.py lines 17–45).  The port is
parsed with `int()` while the dict is built, hence before the required-field
check; missing or empty user/password/database then raise `ValueError`. -/
def get_db_config (env : Env) : Except PyErr DBConfig :=
  match pyInt? (getenv env "MYSQL_PORT" "3306") with
  | none => Except.error (PyErr.valueErr
      ("invalid literal for int() with base 10: '" ++ getenv env "MYSQL_PORT" "3306" ++ "'"))
  | some p =>
    if truthy (env "MYSQL_USER") && truthy (env "MYSQL_PASSWORD")
        && truthy (env "MYSQL_DATABASE") then
      Except.ok
        { host := getenv env "MYSQL_HOST" "localhost"
          port := p
          user := env "MYSQL_USER"
          password := env "MYSQL_PASSWORD"
          database := env "MYSQL_DATABASE"
          charset := getenv env "MYSQL_CHARSET" "utf8mb4"
          collation := getenv env "MYSQL_COLLATION" "utf8mb4_unicode_ci"
          autocommit := true
          sql_mode := getenv env "MYSQL_SQL_MODE" "TRADITIONAL" }
    else
      Except.error (PyErr.valueErr "Missing required database configuration")

/-- Cursor state after `cursor.execute`: column names (first components of
`cursor.description`), fetched rows, and `cursor.rowcount`. -/
structure Cursor where
  description : List String
  rows : List (List Value)
  rowcount : Int

/-- Database-connector oracle: outcome of `pymysql.connect` and of
`cursor.execute` on a given statement; errors are exception messages. -/
structure Engine where
  connectRes : Except String Unit
  run : String → Except String Cursor

/-- Resource events, recorded in order: connection open/close, cursor
open/close, statement execution, commit. -/
inductive Ev where
  | openConn
  | closeConn
  | openCur
  | closeCur
  | exec (stmt : String)
  | commit
  deriving DecidableEq, Repr

/-- Statements executed in a trace. -/
def executedStmts (tr : List Ev) : List String :=
  tr.filterMap (fun e => match e with | Ev.exec s => some s | _ => none)

/-- Embedding of `execute_sql` (server.py lines 98–149).  `get_db_config`
runs outside the `try`; connector failures inside it are wrapped as
`RuntimeError("Database error: ...")`.  The `with` blocks close the cursor
and the connection on every exit path. -/
def execute_sql (env : Env) (eng : Engine) (query : String) :
    Except PyErr String × List Ev :=
  match get_db_config env with
  | Except.error e => (Except.error e, [])
  | Except.ok _config =>
    match eng.connectRes with
    | Except.error m => (Except.error (PyErr.runtimeErr ("Database error: " ++ m)), [])
    | Except.ok _ =>
      match eng.run query with
      | Except.error m =>
          (Except.error (PyErr.runtimeErr ("Database error: " ++ m)),
           [Ev.openConn, Ev.openCur, Ev.exec query, Ev.closeCur, Ev.closeConn])
      | Except.ok cur =>
        if isReadQuery query then
          if cur.rows.isEmpty then
            (Except.ok "Query executed successfully. No rows returned.",
             [Ev.openConn, Ev.openCur, Ev.exec query, Ev.closeCur, Ev.closeConn])
          else
            (Except.ok (pyJoin ['\n']
                (pyJoin [','] cur.description ::
                  cur.rows.map (fun row => pyJoin [','] (row.map renderTool)))),
             [Ev.openConn, Ev.openCur, Ev.exec query, Ev.closeCur, Ev.closeConn])
        else
          (Except.ok ("Query executed successfully. " ++ toString cur.rowcount
              ++ " rows affected."),
           [Ev.openConn, Ev.openCur, Ev.exec query, Ev.commit, Ev.closeCur, Ev.closeConn])

/-- Embedding of `read_table_resource` (server.py lines 72–95): interpolates
the table name verbatim into `SELECT * FROM <table> LIMIT 100` and joins
rows with Python `str()` (so `None` renders as `"None"`). -/
def read_table_resource (env : Env) (eng : Engine) (table : String) :
    Except PyErr String × List Ev :=
  match get_db_config env with
  | Except.error e => (Except.error e, [])
  | Except.ok _config =>
    match eng.connectRes with
    | Except.error m => (Except.error (PyErr.runtimeErr ("Database error: " ++ m)), [])
    | Except.ok _ =>
      let stmt := "SELECT * FROM " ++ table ++ " LIMIT 100"
      match eng.run stmt with
      | Except.error m =>
          (Except.error (PyErr.runtimeErr ("Database error: " ++ m)),
           [Ev.openConn, Ev.openCur, Ev.exec stmt, Ev.closeCur, Ev.closeConn])
      | Except.ok cur =>
          (Except.ok (pyJoin ['\n']
              (pyJoin [','] cur.description ::
                cur.rows.map (fun row => pyJoin [','] (row.map pyStr)))),
           [Ev.openConn, Ev.openCur, Ev.exec stmt, Ev.closeCur, Ev.closeConn])

/-- Python `row[0]`: fails with `IndexError` on an empty row. -/
def row0 : List Value → Except String Value
  | [] => Except.error "list index out of range"
  | v :: _ => Except.ok v

/-- Embedding of `list_resources` (server.py lines 48–69).  Line 60 opens a
cursor via `with`, line 61 immediately shadows it with a SECOND cursor
(`cursor = conn.cursor()`); on the success path both are closed (lines
64–65 close the second, the `with` exits close the first and the
connection), but on an exception path only the `with`-managed first cursor
and the connection are closed. -/
def list_resources (env : Env) (eng : Engine) :
    Except PyErr (List Value) × List Ev :=
  match get_db_config env with
  | Except.error e => (Except.error e, [])
  | Except.ok _config =>
    match eng.connectRes with
    | Except.error m => (Except.error (PyErr.runtimeErr ("Database error: " ++ m)), [])
    | Except.ok _ =>
      match eng.run "SHOW TABLES" with
      | Except.error m =>
          (Except.error (PyErr.runtimeErr ("Database error: " ++ m)),
           [Ev.openConn, Ev.openCur, Ev.openCur, Ev.exec "SHOW TABLES",
            Ev.closeCur, Ev.closeConn])
      | Except.ok cur =>
        match cur.rows.mapM row0 with
        | Except.error m =>
            (Except.error (PyErr.runtimeErr ("Database error: " ++ m)),
             [Ev.openConn, Ev.openCur, Ev.openCur, Ev.exec "SHOW TABLES",
              Ev.closeCur, Ev.closeConn])
        | Except.ok tables =>
            (Except.ok tables,
             [Ev.openConn, Ev.openCur, Ev.openCur, Ev.exec "SHOW TABLES",
              Ev.closeCur, Ev.closeConn, Ev.closeCur, Ev.closeConn])

/-! ### Generic helper lemmas -/

theorem mk_data (s : String) : String.mk s.data = s := rfl

theorem toUpper_of_space {c : Char} (h : pyIsSpace c = true) : Char.toUpper c = c := by
  simp only [pyIsSpace, Bool.or_eq_true, decide_eq_true_eq] at h
  rcases h with ((((h | h) | h) | h) | h) | h <;> subst h <;> decide

theorem selChars_not_space : ∀ c ∈ "SELECT".data, pyIsSpace c = false := by decide

theorem sel_len_le {a b : List Char} (hb : ∀ c ∈ b, pyIsSpace c = true)
    (h : ((a ++ b).map Char.toUpper).take 6 = "SELECT".data) : 6 ≤ a.length := by
  by_contra hlt
  have ha6 : (a.map Char.toUpper).length ≤ 6 := by
    simp only [List.length_map]; omega
  rw [List.map_append, List.take_append_eq_append_take,
      List.take_of_length_le ha6] at h
  rcases ht : (b.map Char.toUpper).take (6 - (a.map Char.toUpper).length) with _ | ⟨c, cs⟩
  · rw [ht, List.append_nil] at h
    have hlen := congrArg List.length h
    have hS : ("SELECT".data).length = 6 := rfl
    simp only [List.length_map, hS] at hlen
    omega
  · have hcS : c ∈ "SELECT".data := by
      rw [← h, ht]
      exact List.mem_append_right _ (List.mem_cons_self c cs)
    have hcB : c ∈ b.map Char.toUpper := by
      have hmem : c ∈ (b.map Char.toUpper).take (6 - (a.map Char.toUpper).length) := by
        rw [ht]; exact List.mem_cons_self c cs
      exact List.mem_of_mem_take hmem
    rcases List.mem_map.mp hcB with ⟨d, hd, rfl⟩
    have hpd : pyIsSpace d = true := hb d hd
    have hup : pyIsSpace (Char.toUpper d) = true := by
      rw [toUpper_of_space hpd]; exact hpd
    have hfalse := selChars_not_space _ hcS
    rw [hup] at hfalse
    exact Bool.noConfusion hfalse

theorem take6_eq_of_append {a b : List Char} (hb : ∀ c ∈ b, pyIsSpace c = true) :
    (((a ++ b).map Char.toUpper).take 6 = "SELECT".data) ↔
      ((a.map Char.toUpper).take 6 = "SELECT".data) := by
  constructor
  · intro h
    have h6 : 6 ≤ a.length := sel_len_le hb h
    rw [List.map_append, List.take_append_of_le_length (by simpa using h6)] at h
    exact h
  · intro h
    have h6 : 6 ≤ a.length := by
      have hlen := congrArg List.length h
      have hS : ("SELECT".data).length = 6 := rfl
      simp only [List.length_take, List.length_map, hS] at hlen
      omega
    rw [List.map_append, List.take_append_of_le_length (by simpa using h6)]
    exact h

theorem classify_core (cs : List Char) :
    (((((cs.dropWhile pyIsSpace).reverse.dropWhile pyIsSpace).reverse).map
        Char.toUpper).take (("SELECT".data).length) == "SELECT".data)
    = (((cs.dropWhile pyIsSpace).map Char.toUpper).take (("SELECT".data).length)
        == "SELECT".data) := by
  have h6 : ("SELECT".data).length = 6 := rfl
  rw [h6]
  have hab : ((cs.dropWhile pyIsSpace).reverse.dropWhile pyIsSpace).reverse ++
      ((cs.dropWhile pyIsSpace).reverse.takeWhile pyIsSpace).reverse
      = cs.dropWhile pyIsSpace := by
    rw [← List.reverse_append, List.takeWhile_append_dropWhile, List.reverse_reverse]
  have hb : ∀ c ∈ ((cs.dropWhile pyIsSpace).reverse.takeWhile pyIsSpace).reverse,
      pyIsSpace c = true := by
    intro c hc
    exact List.mem_takeWhile_imp (List.mem_reverse.mp hc)
  conv_rhs => rw [← hab]
  rw [Bool.eq_iff_iff]
  simp only [beq_iff_eq]
  exact (take6_eq_of_append hb).symm

theorem mem_intersperse_cases {α : Type} (sep y : α) :
    ∀ (xs : List α), y ∈ List.intersperse sep xs → y = sep ∨ y ∈ xs
  | [] => fun h => by simp [List.intersperse] at h
  | [x] => fun h => by
      rw [List.intersperse_singleton] at h
      exact Or.inr h
  | x :: z :: t => fun h => by
      rw [List.intersperse_cons_cons] at h
      simp only [List.mem_cons] at h
      rcases h with h | h | h
      · exact Or.inr (by simp [h])
      · exact Or.inl h
      · rcases mem_intersperse_cases sep y (z :: t) h with h2 | h2
        · exact Or.inl h2
        · exact Or.inr (List.mem_cons_of_mem _ h2)

theorem pyJoin_no_mem {c : Char} {sep : List Char} {parts : List String}
    (hsep : c ∉ sep) (h : ∀ s ∈ parts, c ∉ s.data) :
    c ∉ (pyJoin sep parts).data := by
  intro hc
  have hc2 : c ∈ List.intercalate sep (parts.map String.data) := hc
  unfold List.intercalate at hc2
  rcases List.mem_flatten.mp hc2 with ⟨l, hl, hcl⟩
  rcases mem_intersperse_cases sep l (parts.map String.data) hl with rfl | hl2
  · exact hsep hcl
  · rcases List.mem_map.mp hl2 with ⟨s, hs, rfl⟩
    exact h s hs hcl

theorem pyJoin_singleton (sep : List Char) (s : String) : pyJoin sep [s] = s := by
  unfold pyJoin
  show String.mk (List.intercalate sep [s.data]) = s
  unfold List.intercalate
  rw [List.intersperse_singleton]
  simp only [List.flatten_cons, List.flatten_nil, List.append_nil]

theorem lineList_pyJoin (parts : List String) (hne : parts ≠ [])
    (hnl : ∀ s ∈ parts, '\n' ∉ s.data) :
    lineList (pyJoin ['\n'] parts) = parts := by
  unfold lineList pyJoin
  have hx : ∀ l ∈ parts.map String.data, '\n' ∉ l := by
    intro l hl
    rcases List.mem_map.mp hl with ⟨s, hs, rfl⟩
    exact hnl s hs
  have hne2 : parts.map String.data ≠ [] := by
    simpa using hne
  show (List.splitOn '\n' (List.intercalate ['\n'] (parts.map String.data))).map
      (fun cs => String.mk cs) = parts
  rw [List.splitOn_intercalate (parts.map String.data) '\n' hx hne2, List.map_map]
  have hcomp : ((fun cs => String.mk cs) ∘ String.data) = id := by
    funext s; rfl
  rw [hcomp, List.map_id]

theorem lineList_single {s : String} (h : '\n' ∉ s.data) : lineList s = [s] := by
  have := lineList_pyJoin [s] (by simp) (by simpa using h)
  rwa [pyJoin_singleton] at this

/-! ### Concrete fixtures used by witnesses and counterexamples -/

/-- Environment with the three required variables set. -/
def envOK : Env := fun k =>
  if k = "MYSQL_USER" then some "root"
  else if k = "MYSQL_PASSWORD" then some "pw"
  else if k = "MYSQL_DATABASE" then some "db"
  else none

/-- Environment with `MYSQL_USER` unset. -/
def envMissingUser : Env := fun k =>
  if k = "MYSQL_PASSWORD" then some "pw"
  else if k = "MYSQL_DATABASE" then some "db"
  else none

/-- Descriptor that `get_db_config` produces from `envOK`. -/
def cfgOK : DBConfig :=
  { host := "localhost"
    port := 3306
    user := some "root"
    password := some "pw"
    database := some "db"
    charset := "utf8mb4"
    collation := "utf8mb4_unicode_ci"
    autocommit := true
    sql_mode := "TRADITIONAL" }

/-- Cursor of the spec §8 scenario: columns `id,name`, rows `(1,'a'),(2,NULL)`. -/
def cursorUsers : Cursor :=
  { description := ["id", "name"]
    rows := [[Value.vInt 1, Value.vStr "a"], [Value.vInt 2, Value.vNull]]
    rowcount := 1 }

/-- Engine that always succeeds with `cursorUsers`. -/
def engUsers : Engine :=
  { connectRes := Except.ok ()
    run := fun _ => Except.ok cursorUsers }

/-- Cursor with two columns and zero rows. -/
def cursorEmpty : Cursor :=
  { description := ["id", "name"]
    rows := []
    rowcount := -1 }

/-- Engine whose result set has two columns and zero rows. -/
def engEmptySel : Engine :=
  { connectRes := Except.ok ()
    run := fun _ => Except.ok cursorEmpty }

/-- Engine whose connection attempt fails. -/
def engConnFail : Engine :=
  { connectRes := Except.error "Connection refused"
    run := fun _ => Except.error "Connection refused" }

/-- Engine that connects but fails on every statement. -/
def engRunFail : Engine :=
  { connectRes := Except.ok ()
    run := fun _ => Except.error "Table does not exist" }

example : get_db_config envOK = Except.ok cfgOK := rfl

example : isReadQuery "SELECT id,name FROM users" = true := by decide

example : isReadQuery "  select 1" = true := by decide

example : isReadQuery "UPDATE users SET x=1" = false := by decide

example : (execute_sql envOK engUsers "SELECT id,name FROM users").1 =
    Except.ok "id,name\n1,a\n2,NULL" := rfl

example : (read_table_resource envOK engUsers "users").1 =
    Except.ok "id,name\n1,a\n2,None" := rfl

example : (execute_sql envOK engUsers "UPDATE users SET name='x' WHERE id=1").1 =
    Except.ok "Query executed successfully. 1 rows affected." := rfl

example : (list_resources envOK engRunFail).2.count Ev.openCur = 2 := by decide

/-! ### Claim theorems -/

/-- C2: a statement passed to ExecuteSQL is classified as read exactly when,
after trimming leading whitespace, its case-insensitive prefix is `SELECT`
(the additional trailing trim performed by Python `strip()` cannot change
the prefix test); every other statement takes the write branch and yields
the affected-row-count output. -/
theorem execute_sql_classification (q : String) (env : Env) (eng : Engine)
    (cfg : DBConfig) (cur : Cursor)
    (hc : get_db_config env = Except.ok cfg)
    (hconn : eng.connectRes = Except.ok ())
    (hrun : eng.run q = Except.ok cur) :
    isReadQuery q = specIsRead q ∧
    (specIsRead q = false →
      (execute_sql env eng q).1 =
        Except.ok ("Query executed successfully. " ++ toString cur.rowcount
          ++ " rows affected.")) := by
  have hcls : isReadQuery q = specIsRead q := classify_core q.data
  refine ⟨hcls, ?_⟩
  intro hw
  have hq : isReadQuery q = false := hcls.trans hw
  simp [execute_sql, hc, hconn, hrun, hq]

/-- Witness for C2 at the write statement `UPDATE users SET name='x' WHERE id=1`. -/
theorem execute_sql_classification_witness :
    isReadQuery "UPDATE users SET name='x' WHERE id=1" =
      specIsRead "UPDATE users SET name='x' WHERE id=1" ∧
    (execute_sql envOK engUsers "UPDATE users SET name='x' WHERE id=1").1 =
      Except.ok ("Query executed successfully. " ++ toString cursorUsers.rowcount
        ++ " rows affected.") := by
  have h := execute_sql_classification "UPDATE users SET name='x' WHERE id=1"
      envOK engUsers cfgOK cursorUsers rfl rfl rfl
  exact ⟨h.1, h.2 (by decide)⟩

/-- C1 (amended): for every read-classified statement whose result set has at
least one row, and whose column names and rendered cell values contain no
newline character, the ExecuteSQL output has exactly N+1 lines and its first
line is the column names joined by commas in order. -/
theorem execute_sql_read_line_shape (env : Env) (eng : Engine) (q : String)
    (cfg : DBConfig) (cur : Cursor)
    (hc : get_db_config env = Except.ok cfg)
    (hconn : eng.connectRes = Except.ok ())
    (hrun : eng.run q = Except.ok cur)
    (hread : isReadQuery q = true)
    (hne : cur.rows ≠ [])
    (hcols : ∀ c ∈ cur.description, '\n' ∉ c.data)
    (hvals : ∀ row ∈ cur.rows, ∀ v ∈ row, '\n' ∉ (renderTool v).data) :
    ∃ out, (execute_sql env eng q).1 = Except.ok out ∧
      (lineList out).length = cur.rows.length + 1 ∧
      (lineList out).head? = some (pyJoin [','] cur.description) := by
  have hne2 : cur.rows.isEmpty = false := by
    cases hr : cur.rows with
    | nil => exact absurd hr hne
    | cons a l => rfl
  have hout : (execute_sql env eng q).1 = Except.ok (pyJoin ['\n']
      (pyJoin [','] cur.description ::
        cur.rows.map (fun row => pyJoin [','] (row.map renderTool)))) := by
    simp [execute_sql, hc, hconn, hrun, hread, hne2]
  have hnl : ∀ s ∈ pyJoin [','] cur.description ::
      cur.rows.map (fun row => pyJoin [','] (row.map renderTool)), '\n' ∉ s.data := by
    intro s hs
    rcases List.mem_cons.mp hs with rfl | hs2
    · exact pyJoin_no_mem (by decide) hcols
    · rcases List.mem_map.mp hs2 with ⟨row, hrow, rfl⟩
      refine pyJoin_no_mem (by decide) ?_
      intro u hu
      rcases List.mem_map.mp hu with ⟨v, hv, rfl⟩
      exact hvals row hrow v hv
  have hLL := lineList_pyJoin _ (by simp) hnl
  refine ⟨_, hout, ?_, ?_⟩
  · rw [hLL]; simp
  · rw [hLL]; rfl

/-- Counterexample to C1 as frozen: a read statement returning 0 rows and 2
columns yields the fixed no-rows message, whose first line is not the
comma-joined column names. -/
theorem execute_sql_read_line_shape_cex :
    isReadQuery "SELECT id,name FROM users" = true ∧
    engEmptySel.run "SELECT id,name FROM users" = Except.ok cursorEmpty ∧
    cursorEmpty.rows.length = 0 ∧
    cursorEmpty.description.length = 2 ∧
    (execute_sql envOK engEmptySel "SELECT id,name FROM users").1 =
      Except.ok "Query executed successfully. No rows returned." ∧
    (lineList "Query executed successfully. No rows returned.").head? ≠
      some (pyJoin [','] cursorEmpty.description) := by
  refine ⟨by decide, rfl, rfl, rfl, rfl, by decide⟩

/-- Witness for the amended C1 at the spec §8 scenario (2 rows, 2 columns). -/
theorem execute_sql_read_line_shape_witness :
    ∃ out, (execute_sql envOK engUsers "SELECT id,name FROM users").1 = Except.ok out ∧
      (lineList out).length = cursorUsers.rows.length + 1 ∧
      (lineList out).head? = some (pyJoin [','] cursorUsers.description) :=
  execute_sql_read_line_shape envOK engUsers "SELECT id,name FROM users" cfgOK cursorUsers
    rfl rfl rfl (by decide) (by decide) (by decide) (by decide)

/-- C3: a zero-row read via ExecuteSQL returns exactly the fixed literal
message, while a zero-row read via Read(table) returns exactly one line, the
comma-joined column-name header. -/
theorem zero_row_asymmetry (env : Env) (engT engR : Engine) (q t : String)
    (cfg : DBConfig) (curT curR : Cursor)
    (hc : get_db_config env = Except.ok cfg)
    (hconnT : engT.connectRes = Except.ok ())
    (hconnR : engR.connectRes = Except.ok ())
    (hrunT : engT.run q = Except.ok curT)
    (hread : isReadQuery q = true)
    (hrowsT : curT.rows = [])
    (hrunR : engR.run ("SELECT * FROM " ++ t ++ " LIMIT 100") = Except.ok curR)
    (hrowsR : curR.rows = [])
    (hcolsR : ∀ c ∈ curR.description, '\n' ∉ c.data) :
    (execute_sql env engT q).1 =
      Except.ok "Query executed successfully. No rows returned." ∧
    (read_table_resource env engR t).1 = Except.ok (pyJoin [','] curR.description) ∧
    lineList (pyJoin [','] curR.description) = [pyJoin [','] curR.description] := by
  refine ⟨?_, ?_, ?_⟩
  · simp [execute_sql, hc, hconnT, hrunT, hread, hrowsT]
  · have hres : (read_table_resource env engR t).1 =
        Except.ok (pyJoin ['\n'] [pyJoin [','] curR.description]) := by
      simp [read_table_resource, hc, hconnR, hrunR, hrowsR]
    rwa [pyJoin_singleton] at hres
  · exact lineList_single (pyJoin_no_mem (by decide) hcolsR)

/-- Witness for C3 at a two-column, zero-row result set. -/
theorem zero_row_asymmetry_witness :
    (execute_sql envOK engEmptySel "SELECT id,name FROM users").1 =
      Except.ok "Query executed successfully. No rows returned." ∧
    (read_table_resource envOK engEmptySel "users").1 =
      Except.ok (pyJoin [','] cursorEmpty.description) ∧
    lineList (pyJoin [','] cursorEmpty.description) =
      [pyJoin [','] cursorEmpty.description] :=
  zero_row_asymmetry envOK engEmptySel engEmptySel "SELECT id,name FROM users" "users"
    cfgOK cursorEmpty cursorEmpty rfl rfl rfl rfl (by decide) rfl rfl rfl (by decide)

/-- C4: null values are rendered asymmetrically — ExecuteSQL renders a null
cell as the literal `NULL` while Read(table) renders every cell with Python
`str()` (so null becomes `None`); in particular the spec scenario
`SELECT id,name FROM users` over rows `(1,'a'),(2,NULL)` yields
`id,name\n1,a\n2,NULL` via ExecuteSQL and `id,name\n1,a\n2,None` via
Read(table). -/
theorem null_rendering_asymmetry (env : Env) (eng : Engine) (q t : String)
    (cfg : DBConfig) (cur : Cursor)
    (hc : get_db_config env = Except.ok cfg)
    (hconn : eng.connectRes = Except.ok ())
    (hrunAll : ∀ s, eng.run s = Except.ok cur)
    (hread : isReadQuery q = true)
    (hne : cur.rows ≠ []) :
    (execute_sql env eng q).1 = Except.ok (pyJoin ['\n']
      (pyJoin [','] cur.description ::
        cur.rows.map (fun row => pyJoin [','] (row.map renderTool)))) ∧
    (read_table_resource env eng t).1 = Except.ok (pyJoin ['\n']
      (pyJoin [','] cur.description ::
        cur.rows.map (fun row => pyJoin [','] (row.map pyStr)))) ∧
    renderTool Value.vNull = "NULL" ∧
    pyStr Value.vNull = "None" ∧
    (execute_sql envOK engUsers "SELECT id,name FROM users").1 =
      Except.ok "id,name\n1,a\n2,NULL" ∧
    (read_table_resource envOK engUsers "users").1 =
      Except.ok "id,name\n1,a\n2,None" := by
  have hne2 : cur.rows.isEmpty = false := by
    cases hr : cur.rows with
    | nil => exact absurd hr hne
    | cons a l => rfl
  refine ⟨?_, ?_, rfl, rfl, rfl, rfl⟩
  · simp [execute_sql, hc, hconn, hrunAll q, hread, hne2]
  · simp [read_table_resource, hc, hconn, hrunAll ("SELECT * FROM " ++ t ++ " LIMIT 100")]

/-- Witness for C4 at the spec §8 scenario engine. -/
theorem null_rendering_asymmetry_witness :
    (execute_sql envOK engUsers "SELECT id,name FROM users").1 =
      Except.ok (pyJoin ['\n']
        (pyJoin [','] cursorUsers.description ::
          cursorUsers.rows.map (fun row => pyJoin [','] (row.map renderTool)))) ∧
    (read_table_resource envOK engUsers "users").1 =
      Except.ok (pyJoin ['\n']
        (pyJoin [','] cursorUsers.description ::
          cursorUsers.rows.map (fun row => pyJoin [','] (row.map pyStr)))) ∧
    renderTool Value.vNull = "NULL" ∧
    pyStr Value.vNull = "None" ∧
    (execute_sql envOK engUsers "SELECT id,name FROM users").1 =
      Except.ok "id,name\n1,a\n2,NULL" ∧
    (read_table_resource envOK engUsers "users").1 =
      Except.ok "id,name\n1,a\n2,None" :=
  null_rendering_asymmetry envOK engUsers "SELECT id,name FROM users" "users"
    cfgOK cursorUsers rfl rfl (fun _ => rfl) (by decide) (by decide)

/-- C5: every write-classified statement commits after execution (the commit
event follows the execute event in the trace) and returns exactly
`Query executed successfully. {affected} rows affected.` with the
engine-reported row count. -/
theorem write_branch_commit (env : Env) (eng : Engine) (q : String)
    (cfg : DBConfig) (cur : Cursor)
    (hc : get_db_config env = Except.ok cfg)
    (hconn : eng.connectRes = Except.ok ())
    (hrun : eng.run q = Except.ok cur)
    (hwrite : isReadQuery q = false) :
    (execute_sql env eng q).1 = Except.ok
      ("Query executed successfully. " ++ toString cur.rowcount ++ " rows affected.") ∧
    (execute_sql env eng q).2 =
      [Ev.openConn, Ev.openCur, Ev.exec q, Ev.commit, Ev.closeCur, Ev.closeConn] := by
  constructor
  · simp [execute_sql, hc, hconn, hrun, hwrite]
  · simp [execute_sql, hc, hconn, hrun, hwrite]

/-- Witness for C5 at `UPDATE users SET name='x' WHERE id=1` with rowcount 1. -/
theorem write_branch_commit_witness :
    (execute_sql envOK engUsers "UPDATE users SET name='x' WHERE id=1").1 = Except.ok
      ("Query executed successfully. " ++ toString cursorUsers.rowcount
        ++ " rows affected.") ∧
    (execute_sql envOK engUsers "UPDATE users SET name='x' WHERE id=1").2 =
      [Ev.openConn, Ev.openCur, Ev.exec "UPDATE users SET name='x' WHERE id=1",
       Ev.commit, Ev.closeCur, Ev.closeConn] :=
  write_branch_commit envOK engUsers "UPDATE users SET name='x' WHERE id=1"
    cfgOK cursorUsers rfl rfl rfl (by decide)

/-- Helper: if one of user, password, database is falsy, `get_db_config`
returns a `ValueError`. -/
theorem get_db_config_missing (env : Env)
    (h : truthy (env "MYSQL_USER") = false ∨ truthy (env "MYSQL_PASSWORD") = false ∨
      truthy (env "MYSQL_DATABASE") = false) :
    ∃ m, get_db_config env = Except.error (PyErr.valueErr m) := by
  unfold get_db_config
  cases hp : pyInt? (getenv env "MYSQL_PORT" "3306") with
  | none => exact ⟨_, rfl⟩
  | some p =>
    have hcond : (truthy (env "MYSQL_USER") && truthy (env "MYSQL_PASSWORD")
        && truthy (env "MYSQL_DATABASE")) = false := by
      rcases h with h | h | h <;> simp [h]
    rw [hcond]
    exact ⟨_, rfl⟩

/-- Helper: `get_db_config` succeeds exactly when the port parses as an
integer and user, password and database are all truthy. -/
theorem get_db_config_ok_iff (env : Env) :
    (∃ cfg, get_db_config env = Except.ok cfg) ↔
      ((pyInt? (getenv env "MYSQL_PORT" "3306")).isSome ∧
        truthy (env "MYSQL_USER") = true ∧ truthy (env "MYSQL_PASSWORD") = true ∧
        truthy (env "MYSQL_DATABASE") = true) := by
  unfold get_db_config
  cases hp : pyInt? (getenv env "MYSQL_PORT" "3306") with
  | none => simp
  | some p =>
    cases hu : truthy (env "MYSQL_USER") <;>
      cases hpw : truthy (env "MYSQL_PASSWORD") <;>
        cases hd : truthy (env "MYSQL_DATABASE") <;>
          simp [hu, hpw, hd]

/-- C6: whenever user, password or database is missing or empty, configuration
resolution fails with a `ValueError` and no connection attempt is made (the
event trace of each handler is empty); moreover success of `get_db_config` is
characterised exactly by port parsing plus the three truthiness checks — no
other validation exists. -/
theorem config_validation (env : Env) (eng : Engine) (q t : String) :
    ((truthy (env "MYSQL_USER") = false ∨ truthy (env "MYSQL_PASSWORD") = false ∨
        truthy (env "MYSQL_DATABASE") = false) →
      (∃ m, get_db_config env = Except.error (PyErr.valueErr m)) ∧
      (execute_sql env eng q).2 = [] ∧
      (read_table_resource env eng t).2 = [] ∧
      (list_resources env eng).2 = []) ∧
    ((∃ cfg, get_db_config env = Except.ok cfg) ↔
      ((pyInt? (getenv env "MYSQL_PORT" "3306")).isSome ∧
        truthy (env "MYSQL_USER") = true ∧ truthy (env "MYSQL_PASSWORD") = true ∧
        truthy (env "MYSQL_DATABASE") = true)) := by
  constructor
  · intro hmiss
    rcases get_db_config_missing env hmiss with ⟨m, hm⟩
    refine ⟨⟨m, hm⟩, ?_, ?_, ?_⟩
    · simp [execute_sql, hm]
    · simp [read_table_resource, hm]
    · simp [list_resources, hm]
  · exact get_db_config_ok_iff env

/-- Witness for C6: an environment without `MYSQL_USER` yields a config error,
empty traces, and fails the success characterisation. -/
theorem config_validation_witness :
    ((∃ m, get_db_config envMissingUser = Except.error (PyErr.valueErr m)) ∧
      (execute_sql envMissingUser engUsers "SELECT 1").2 = [] ∧
      (read_table_resource envMissingUser engUsers "users").2 = [] ∧
      (list_resources envMissingUser engUsers).2 = []) ∧
    ((∃ cfg, get_db_config envMissingUser = Except.ok cfg) ↔
      ((pyInt? (getenv envMissingUser "MYSQL_PORT" "3306")).isSome ∧
        truthy (envMissingUser "MYSQL_USER") = true ∧
        truthy (envMissingUser "MYSQL_PASSWORD") = true ∧
        truthy (envMissingUser "MYSQL_DATABASE") = true)) :=
  ⟨(config_validation envMissingUser engUsers "SELECT 1" "users").1 (Or.inl (by decide)),
   (config_validation envMissingUser engUsers "SELECT 1" "users").2⟩

/-- C7: every connector failure — a failed connection attempt, or a failed
statement execution in any of the three operations — surfaces as a single
error whose message is `Database error:` followed by the original message;
nothing but the error is returned. -/
theorem db_error_wrapping (env : Env) (eng : Engine) (q t : String) (cfg : DBConfig)
    (hc : get_db_config env = Except.ok cfg) :
    (∀ m, eng.connectRes = Except.error m →
      (execute_sql env eng q).1 =
        Except.error (PyErr.runtimeErr ("Database error: " ++ m)) ∧
      (read_table_resource env eng t).1 =
        Except.error (PyErr.runtimeErr ("Database error: " ++ m)) ∧
      (list_resources env eng).1 =
        Except.error (PyErr.runtimeErr ("Database error: " ++ m))) ∧
    (eng.connectRes = Except.ok () →
      (∀ m, eng.run q = Except.error m →
        (execute_sql env eng q).1 =
          Except.error (PyErr.runtimeErr ("Database error: " ++ m))) ∧
      (∀ m, eng.run ("SELECT * FROM " ++ t ++ " LIMIT 100") = Except.error m →
        (read_table_resource env eng t).1 =
          Except.error (PyErr.runtimeErr ("Database error: " ++ m))) ∧
      (∀ m, eng.run "SHOW TABLES" = Except.error m →
        (list_resources env eng).1 =
          Except.error (PyErr.runtimeErr ("Database error: " ++ m)))) := by
  constructor
  · intro m hm
    refine ⟨?_, ?_, ?_⟩
    · simp [execute_sql, hc, hm]
    · simp [read_table_resource, hc, hm]
    · simp [list_resources, hc, hm]
  · intro hconn
    refine ⟨?_, ?_, ?_⟩
    · intro m hm
      simp [execute_sql, hc, hconn, hm]
    · intro m hm
      simp [read_table_resource, hc, hconn, hm]
    · intro m hm
      simp [list_resources, hc, hconn, hm]

/-- Witness for C7: a connection failure and an execution failure, both
wrapped with the `Database error:` prefix. -/
theorem db_error_wrapping_witness :
    (execute_sql envOK engConnFail "SELECT 1").1 =
      Except.error (PyErr.runtimeErr ("Database error: " ++ "Connection refused")) ∧
    (list_resources envOK engRunFail).1 =
      Except.error (PyErr.runtimeErr ("Database error: " ++ "Table does not exist")) :=
  ⟨(((db_error_wrapping envOK engConnFail "SELECT 1" "users" cfgOK rfl).1)
      "Connection refused" rfl).1,
   (((db_error_wrapping envOK engRunFail "SELECT 1" "users" cfgOK rfl).2 rfl).2.2)
      "Table does not exist" rfl⟩

/-- C8: Read(table) executes exactly `SELECT * FROM <table> LIMIT 100` with
the table name substituted verbatim and nothing else, for every environment
and table name; consequently, for an engine honouring a trailing
`LIMIT 100`, at most 100 rows are fetched. -/
theorem read_table_statement (env : Env) (eng : Engine) (t : String) (cfg : DBConfig)
    (hc : get_db_config env = Except.ok cfg)
    (hconn : eng.connectRes = Except.ok ())
    (hcap : ∀ s cur, eng.run s = Except.ok cur →
      (" LIMIT 100").data <:+ s.data → cur.rows.length ≤ 100) :
    executedStmts (read_table_resource env eng t).2 =
      ["SELECT * FROM " ++ t ++ " LIMIT 100"] ∧
    (∀ cur, eng.run ("SELECT * FROM " ++ t ++ " LIMIT 100") = Except.ok cur →
      cur.rows.length ≤ 100) := by
  constructor
  · cases hr : eng.run ("SELECT * FROM " ++ t ++ " LIMIT 100") with
    | error m => simp [read_table_resource, hc, hconn, hr, executedStmts]
    | ok cur => simp [read_table_resource, hc, hconn, hr, executedStmts]
  · intro cur hcur
    refine hcap _ cur hcur ⟨("SELECT * FROM " ++ t).data, ?_⟩
    exact (String.data_append _ _).symm

/-- Witness for C8 at table `users` with an engine honouring the limit. -/
theorem read_table_statement_witness :
    executedStmts (read_table_resource envOK engUsers "users").2 =
      ["SELECT * FROM " ++ "users" ++ " LIMIT 100"] ∧
    (∀ cur, engUsers.run ("SELECT * FROM " ++ "users" ++ " LIMIT 100") = Except.ok cur →
      cur.rows.length ≤ 100) :=
  read_table_statement envOK engUsers "users" cfgOK rfl rfl
    (fun _ cur hcur _ => by
      cases hcur
      decide)

/-- C9 (code-bug evidence): on a failing `SHOW TABLES`, `list_resources`
opens one connection and closes it, but has opened TWO cursors (line 60 via
`with`, line 61 via the shadowing `cursor = conn.cursor()`) of which only
one is closed on the exception path. -/
theorem list_resources_cursor_leak :
    (list_resources envOK engRunFail).1 =
      Except.error (PyErr.runtimeErr "Database error: Table does not exist") ∧
    (list_resources envOK engRunFail).2.count Ev.openConn = 1 ∧
    (list_resources envOK engRunFail).2.count Ev.closeConn = 1 ∧
    (list_resources envOK engRunFail).2.count Ev.openCur = 2 ∧
    (list_resources envOK engRunFail).2.count Ev.closeCur = 1 := by
  exact ⟨rfl, by decide, by decide, by decide, by decide⟩

/-- Helper: every error produced by `get_db_config` is a `ValueError` whose
message is the missing-configuration literal or an `int()` parse message. -/
theorem get_db_config_error_msg (env : Env) (e : PyErr)
    (he : get_db_config env = Except.error e) :
    e = PyErr.valueErr "Missing required database configuration" ∨
    ∃ s, e = PyErr.valueErr ("invalid literal for int() with base 10: '" ++ s ++ "'") := by
  unfold get_db_config at he
  cases hp : pyInt? (getenv env "MYSQL_PORT" "3306") with
  | none =>
    rw [hp] at he
    refine Or.inr ⟨getenv env "MYSQL_PORT" "3306", ?_⟩
    simpa using he.symm
  | some p =>
    rw [hp] at he
    by_cases hcond : (truthy (env "MYSQL_USER") && truthy (env "MYSQL_PASSWORD")
        && truthy (env "MYSQL_DATABASE")) = true
    · simp [hcond] at he
    · rw [Bool.not_eq_true] at hcond
      simp only [hcond] at he
      simp only [Bool.false_eq_true, if_false] at he
      exact Or.inl (by simpa using he.symm)

/-- Helper: an `int()` parse message never carries the `Database error:`
prefix, whatever the offending string was. -/
theorem invalid_literal_not_prefixed (s : String) :
    pyStartsWith ("invalid literal for int() with base 10: '" ++ s ++ "'")
      "Database error:" = false := by
  unfold pyStartsWith
  rw [String.data_append, String.data_append]
  have hlen : ("Database error:".data).length = 15 := rfl
  rw [hlen, List.append_assoc, List.take_append_of_le_length (by decide)]
  decide

/-- C10: a configuration failure (missing field or unparsable port) is raised
before each handler's `try` block, so all three handlers surface it
unchanged — its message never carries the `Database error:` prefix. -/
theorem config_error_propagates (env : Env) (eng : Engine) (q t : String) (e : PyErr)
    (he : get_db_config env = Except.error e) :
    (execute_sql env eng q).1 = Except.error e ∧
    (read_table_resource env eng t).1 = Except.error e ∧
    (list_resources env eng).1 = Except.error e ∧
    pyStartsWith e.msg "Database error:" = false := by
  refine ⟨?_, ?_, ?_, ?_⟩
  · simp [execute_sql, he]
  · simp [read_table_resource, he]
  · simp [list_resources, he]
  · rcases get_db_config_error_msg env e he with rfl | ⟨s, rfl⟩
    · decide
    · simpa [PyErr.msg] using invalid_literal_not_prefixed s

/-- Witness for C10 at an environment missing `MYSQL_USER`. -/
theorem config_error_propagates_witness :
    (execute_sql envMissingUser engUsers "SELECT 1").1 =
      Except.error (PyErr.valueErr "Missing required database configuration") ∧
    (read_table_resource envMissingUser engUsers "users").1 =
      Except.error (PyErr.valueErr "Missing required database configuration") ∧
    (list_resources envMissingUser engUsers).1 =
      Except.error (PyErr.valueErr "Missing required database configuration") ∧
    pyStartsWith (PyErr.valueErr "Missing required database configuration").msg
      "Database error:" = false :=
  config_error_propagates envMissingUser engUsers "SELECT 1" "users"
    (PyErr.valueErr "Missing required database configuration") rfl

end MySQLMCP
